import Mathlib

/-!
Verification of the consultation lifecycle core of the ecosus backend.

The definitions below are a shallow embedding of:
* the Consultation schema, its `canChangeStatus` / `updateStatus` methods and
  its `getUrgentConsultations` static (models/Consultation.js), and
* the consultation controller handlers `createConsultation`,
  `updateConsultation`, `deleteConsultation`, `getUrgentConsultations`,
  `getConsultationStats`, `markAsResolved`, `markAsUrgent`
  (controllers/consultationController.js).

Conventions: ObjectIds are `Nat`, dates are `Nat` ticks, mutation of a
document is explicit state passing, a thrown error or `next(new
ErrorResponse(...))` is the error branch of `Except`, and the stored
collection is a `List Consultation`.  Each handler is modelled from the
point where `findById` has already returned the document, so the
not-found branch is outside the embedding.
-/

namespace Ecosus

/-- The four values of the schema's `status` enum. -/
inductive Status where
  | pending
  | confirmed
  | completed
  | cancelled
deriving DecidableEq, Fintype, Repr

/-- The string stored in the document for each `Status` value. -/
def statusStr : Status → String
  | .pending => "pending"
  | .confirmed => "confirmed"
  | .completed => "completed"
  | .cancelled => "cancelled"

/-- One entry of the `statusHistory` array. -/
structure HistoryEntry where
  status : Status
  changedBy : Nat
  reason : String
  changedAt : Nat
deriving DecidableEq, Repr

/-- A consultation document: the schema fields the core operations touch.
`createdAt` is managed by the schema's timestamps option. -/
structure Consultation where
  user : Nat
  service : String
  projectType : String
  description : String
  location : String
  preferredDate : Nat
  status : Status
  statusHistory : List HistoryEntry
  isUrgent : Bool
  createdAt : Nat
deriving DecidableEq, Repr

/-- The property names an object literal inherits from
`Object.prototype`; indexing `validTransitions` with one of them yields
the inherited value (a function, or the prototype object for
`__proto__`), which is not nullish and has no `includes` method. -/
def objectPrototypeKeys : List String :=
  ["constructor", "hasOwnProperty", "isPrototypeOf", "propertyIsEnumerable",
   "toLocaleString", "toString", "valueOf", "__proto__",
   "__defineGetter__", "__defineSetter__", "__lookupGetter__",
   "__lookupSetter__"]

/-- The possible results of the JavaScript property access
`validTransitions[current]`: an own data property of the literal (an
array), a non-nullish value inherited from `Object.prototype`, or
`undefined`. -/
inductive JsLookup where
  | list (l : List String)
  | inherited
  | absent
deriving DecidableEq, Repr

/-- The property access `validTransitions[current]` on the object literal
inside `canChangeStatus`: own keys first, then the prototype chain, then
`undefined`. -/
def validTransitionsLookup (s : String) : JsLookup :=
  if s = "pending" then .list ["confirmed", "cancelled"]
  else if s = "confirmed" then .list ["completed", "cancelled"]
  else if s = "completed" then .list ["cancelled"]
  else if s = "cancelled" then .list []
  else if s ∈ objectPrototypeKeys then .inherited
  else .absent

/-- The message of the `TypeError` raised when the optional chain calls
`includes` on an inherited prototype value that has no such method. -/
def includesTypeErrorMsg : String :=
  "TypeError: validTransitions[this.status]?.includes is not a function"

/-- The body of `canChangeStatus` over raw status strings, which the spec
names `canTransition`: `validTransitions[current]?.includes(requested) ||
false`.  Only `undefined` (and `null`) short-circuit the optional chain,
so an inherited prototype value is not skipped: the call to its absent
`includes` method throws a `TypeError`, the error branch here. -/
def canTransition (current requested : String) : Except String Bool :=
  match validTransitionsLookup current with
  | .list allowed => .ok (allowed.contains requested)
  | .inherited => .error includesTypeErrorMsg
  | .absent => .ok false

/-- `consultationSchema.methods.canChangeStatus`; a thrown `TypeError`
propagates to the caller.  On the four-valued enum the schema guarantees
for the stored status, the error branch is unreachable. -/
def Consultation.canChangeStatus (c : Consultation) (newStatus : Status) :
    Except String Bool :=
  canTransition (statusStr c.status) (statusStr newStatus)

/-- The transition table of the spec, as the list of its (from, to) pairs. -/
def tablePairs : List (Status × Status) :=
  [(.pending, .confirmed), (.pending, .cancelled),
   (.confirmed, .completed), (.confirmed, .cancelled),
   (.completed, .cancelled)]

/-- The same (from, to) pairs at the string level. -/
def tablePairsStr : List (String × String) :=
  [("pending", "confirmed"), ("pending", "cancelled"),
   ("confirmed", "completed"), ("confirmed", "cancelled"),
   ("completed", "cancelled")]

/-- The four strings of the status enum. -/
def statusStrings : List String :=
  ["pending", "confirmed", "completed", "cancelled"]

/-- The message of the error thrown by `updateStatus` on an illegal
transition. -/
def invalidTransitionMsg (current requested : String) : String :=
  "Invalid status transition from " ++ current ++ " to " ++ requested

/-- `consultationSchema.methods.updateStatus`.  The first component of the
result is the document as persisted after the call; the method throws
before mutating anything, so on every error branch it is the unchanged
input.  A `TypeError` escaping `canChangeStatus` propagates (unreachable
for the enum-valued statuses this method is called with). -/
def Consultation.updateStatus (c : Consultation) (newStatus : Status)
    (userId : Nat) (reason : String) (now : Nat) :
    Consultation × Except String (Status × Status) :=
  match c.canChangeStatus newStatus with
  | .error e => (c, .error e)
  | .ok can =>
  if !can then
    (c, .error (invalidTransitionMsg (statusStr c.status) (statusStr newStatus)))
  else
    let oldStatus := c.status
    let c' := { c with
      status := newStatus,
      statusHistory := c.statusHistory ++
        [{ status := newStatus, changedBy := userId, reason := reason,
           changedAt := now }] }
    (c', .ok (oldStatus, newStatus))

/-- Errors the update/delete handlers pass to `next`:
`notAuthorized` is the 401 "Not authorized ..." response and
`forbiddenProcessed` the 400 "Cannot update/delete consultation after it
has been processed" response (the spec's Forbidden taxonomy). -/
inductive ConsultErr where
  | notAuthorized
  | forbiddenProcessed
deriving DecidableEq, Repr

/-- A `req.body` for `PUT /api/consultations/:id`: `findByIdAndUpdate`
sets exactly the fields the client supplies (`none` means the field is
absent from the payload).  The route's validation middleware only checks
the `description` field; it does not whitelist the body. -/
structure UpdateBody where
  user : Option Nat := none
  service : Option String := none
  projectType : Option String := none
  description : Option String := none
  location : Option String := none
  preferredDate : Option Nat := none
  status : Option Status := none
  statusHistory : Option (List HistoryEntry) := none
  isUrgent : Option Bool := none
deriving DecidableEq, Repr

/-- The effect of `findByIdAndUpdate(id, body)` on the stored document. -/
def applyUpdate (c : Consultation) (b : UpdateBody) : Consultation :=
  { user := b.user.getD c.user
    service := b.service.getD c.service
    projectType := b.projectType.getD c.projectType
    description := b.description.getD c.description
    location := b.location.getD c.location
    preferredDate := b.preferredDate.getD c.preferredDate
    status := b.status.getD c.status
    statusHistory := b.statusHistory.getD c.statusHistory
    isUrgent := b.isUrgent.getD c.isUrgent
    createdAt := c.createdAt }

/-- `exports.updateConsultation`: the ownership guard, the pending-only
guard, then `findByIdAndUpdate(req.params.id, req.body)`. -/
def updateConsultation (c : Consultation) (reqUserId : Nat)
    (reqUserRole : String) (body : UpdateBody) : Except ConsultErr Consultation :=
  if c.user ≠ reqUserId ∧ reqUserRole ≠ "admin" then
    .error .notAuthorized
  else if c.user = reqUserId ∧ c.status ≠ .pending then
    .error .forbiddenProcessed
  else
    .ok (applyUpdate c body)

/-- `exports.deleteConsultation`: the same two guards, then
`findByIdAndDelete`; `.ok ()` means the document was deleted. -/
def deleteConsultation (c : Consultation) (reqUserId : Nat)
    (reqUserRole : String) : Except ConsultErr Unit :=
  if c.user ≠ reqUserId ∧ reqUserRole ≠ "admin" then
    .error .notAuthorized
  else if c.user = reqUserId ∧ c.status ≠ .pending then
    .error .forbiddenProcessed
  else
    .ok ()

/-- `exports.createConsultation`: the document is created from
`{...req.body, user: req.user.id, ...}`, so the `user` field is always
overwritten with the authenticated requester's id; schema defaults fill
fields the body leaves out. -/
def createConsultation (body : UpdateBody) (reqUserId : Nat) (now : Nat) :
    Consultation :=
  { user := reqUserId
    service := body.service.getD ""
    projectType := body.projectType.getD ""
    description := body.description.getD ""
    location := body.location.getD ""
    preferredDate := body.preferredDate.getD 0
    status := body.status.getD .pending
    statusHistory := body.statusHistory.getD []
    isUrgent := body.isUrgent.getD false
    createdAt := now }

/-- `exports.markAsResolved`: assigns `status = "completed"` directly (no
`canChangeStatus` check, no history entry) and saves.  The handler also
assigns `followUpDate`, a field the schema does not declare, which strict
mode drops on save. -/
def markAsResolved (c : Consultation) : Consultation :=
  { c with status := .completed }

/-- `exports.markAsUrgent`: sets the urgency flag and saves. -/
def markAsUrgent (c : Consultation) : Consultation :=
  { c with isUrgent := true }

/-- Insertion step of sorting by `createdAt` descending. -/
def insertByCreatedDesc (c : Consultation) :
    List Consultation → List Consultation
  | [] => [c]
  | d :: ds =>
    if d.createdAt ≤ c.createdAt then c :: d :: ds
    else d :: insertByCreatedDesc c ds

/-- `.sort("-createdAt")`: newest first. -/
def sortByCreatedDesc : List Consultation → List Consultation
  | [] => []
  | c :: cs => insertByCreatedDesc c (sortByCreatedDesc cs)

/-- The filter the controller's urgent handler passes to `find`: the
JavaScript expression `{ isUrgent: true } || { status: "urgent" }`
evaluates to its first operand (the second clause is dead), so only the
urgency flag is filtered on. -/
def urgentFilter (c : Consultation) : Bool := c.isUrgent

/-- `exports.getUrgentConsultations`, the handler served at
`GET /api/consultations/urgent`. -/
def getUrgentConsultations (db : List Consultation) : List Consultation :=
  sortByCreatedDesc (db.filter urgentFilter)

/-- `consultationSchema.statics.getUrgentConsultations`:
`find({ isUrgent: true, status: "pending" })`.  The controller never
calls this static. -/
def getUrgentConsultationsStatic (db : List Consultation) : List Consultation :=
  sortByCreatedDesc (db.filter (fun c => c.isUrgent && c.status == .pending))

/-- The accumulator of the aggregation in `getConsultationStats`. -/
structure Stats where
  total : Nat
  pending : Nat
  completed : Nat
  cancelled : Nat
  urgent : Nat
deriving DecidableEq, Repr

/-- One document's contribution to the aggregation accumulators: each
counter adds the conditional of its predicate.  The `urgent` counter
tests only `$isUrgent`. -/
def statsStep (s : Stats) (c : Consultation) : Stats :=
  { total := s.total + 1
    pending := s.pending + (if c.status = .pending then 1 else 0)
    completed := s.completed + (if c.status = .completed then 1 else 0)
    cancelled := s.cancelled + (if c.status = .cancelled then 1 else 0)
    urgent := s.urgent + (if c.isUrgent then 1 else 0) }

/-- The aggregation of `exports.getConsultationStats` over the whole
collection. -/
def getConsultationStats (db : List Consultation) : Stats :=
  db.foldl statsStep ⟨0, 0, 0, 0, 0⟩

/-- Modelled from the spec: the count C8 asks for, the number of
consultations whose urgency flag is set and whose status is pending. -/
def specUrgentPendingCount (db : List Consultation) : Nat :=
  (db.filter (fun c => c.isUrgent && c.status == .pending)).length

/-- A baseline consultation used as concrete input by the witnesses. -/
def baseConsultation : Consultation :=
  { user := 1
    service := "residential"
    projectType := "villa"
    description := "a project description comfortably above fifty characters"
    location := "cairo"
    preferredDate := 10
    status := .pending
    statusHistory := []
    isUrgent := false
    createdAt := 5 }

/-- A history entry used as concrete input by the witnesses. -/
def historyEntry0 : HistoryEntry :=
  { status := .cancelled, changedBy := 2, reason := "spam", changedAt := 6 }

/-- A cancelled consultation with one history entry. -/
def cancelledConsultation : Consultation :=
  { baseConsultation with status := .cancelled, statusHistory := [historyEntry0] }

/-- A confirmed consultation with one history entry. -/
def confirmedWithHistory : Consultation :=
  { baseConsultation with status := .confirmed, statusHistory := [historyEntry0] }

/-- A confirmed consultation owned by user 5. -/
def adminOwned : Consultation :=
  { baseConsultation with user := 5, status := .confirmed }

/-- An urgent consultation whose status is completed. -/
def urgentCompleted : Consultation :=
  { baseConsultation with isUrgent := true, status := .completed }

/-- An update payload that replaces the status history with an empty
array. -/
def truncateHistoryBody : UpdateBody :=
  { statusHistory := some [] }

/-- An update payload that sets the owner reference to user 42. -/
def ownerBody : UpdateBody :=
  { user := some 42 }

/-- An ordinary update payload touching only the description. -/
def plainBody : UpdateBody :=
  { description := some "an edited project description comfortably above fifty chars" }

/- ------------------------------------------------------------------ -/
/- Helper lemmas shared by the claim theorems.                         -/
/- ------------------------------------------------------------------ -/

theorem canTransition_of_mem_tablePairs :
    ∀ s t : Status, (s, t) ∈ tablePairs →
      canTransition (statusStr s) (statusStr t) = .ok true := by
  intro s t
  cases s <;> cases t <;> intro h <;>
    first
      | rfl
      | exact absurd h (by decide)

theorem canTransition_false_of_not_mem_tablePairs :
    ∀ s t : Status, (s, t) ∉ tablePairs →
      canTransition (statusStr s) (statusStr t) = .ok false := by
  intro s t
  cases s <;> cases t <;> intro h <;>
    first
      | rfl
      | exact absurd (by decide) h

theorem invalidTransitionMsg_inj :
    ∀ a b a2 b2 : Status,
      invalidTransitionMsg (statusStr a) (statusStr b)
        = invalidTransitionMsg (statusStr a2) (statusStr b2) →
      a = a2 ∧ b = b2 := by
  decide

theorem getLast?_append_singleton {α : Type} (l : List α) (e : α) :
    (l ++ [e]).getLast? = some e := by
  rw [List.getLast?_concat]

theorem not_mem_statusStrings_of_mem_proto :
    ∀ s ∈ objectPrototypeKeys, s ∉ statusStrings := by
  decide

theorem canTransition_iff_mem (current requested : String) :
    canTransition current requested = .ok true ↔
      (current, requested) ∈ tablePairsStr := by
  by_cases h1 : current = "pending"
  · subst h1
    simp [canTransition, validTransitionsLookup, tablePairsStr, Prod.ext_iff,
      List.contains, List.elem_eq_mem]
  · by_cases h2 : current = "confirmed"
    · subst h2
      simp [canTransition, validTransitionsLookup, tablePairsStr, Prod.ext_iff,
        List.contains, List.elem_eq_mem]
    · by_cases h3 : current = "completed"
      · subst h3
        simp [canTransition, validTransitionsLookup, tablePairsStr,
          Prod.ext_iff, List.contains, List.elem_eq_mem]
      · by_cases h4 : current = "cancelled"
        · subst h4
          simp [canTransition, validTransitionsLookup, tablePairsStr,
            Prod.ext_iff, List.contains, List.elem_eq_mem]
        · by_cases hp : current ∈ objectPrototypeKeys
          · simp [canTransition, validTransitionsLookup, tablePairsStr,
              Prod.ext_iff, h1, h2, h3, h4, hp]
          · simp [canTransition, validTransitionsLookup, tablePairsStr,
              Prod.ext_iff, h1, h2, h3, h4, hp]

/- ------------------------------------------------------------------ -/
/- Claim theorems.                                                     -/
/- ------------------------------------------------------------------ -/

/-- C1: for every consultation and every (from, to) pair in the transition
table, `updateStatus` succeeds, the status becomes `to`, the status
history grows by exactly one entry whose `status` field is `to` and whose
`changedBy` field is the actor, and the call returns the pair (old status,
new status). -/
theorem updateStatus_legal_transition (c : Consultation) (s t : Status)
    (userId : Nat) (reason : String) (now : Nat)
    (hmem : (s, t) ∈ tablePairs) (hstat : c.status = s) :
    (c.updateStatus t userId reason now).2 = .ok (s, t)
    ∧ (c.updateStatus t userId reason now).1.status = t
    ∧ (c.updateStatus t userId reason now).1.statusHistory.length
        = c.statusHistory.length + 1
    ∧ (c.updateStatus t userId reason now).1.statusHistory.getLast?
        = some { status := t, changedBy := userId, reason := reason,
                 changedAt := now } := by
  have hcan : c.canChangeStatus t = .ok true := by
    unfold Consultation.canChangeStatus
    rw [hstat]
    exact canTransition_of_mem_tablePairs s t hmem
  simp [Consultation.updateStatus, hcan, hstat, getLast?_append_singleton]

/-- Witness for C1: the legal transition pending to confirmed on a
concrete pending consultation. -/
theorem updateStatus_legal_transition_witness :
    ((Status.pending, Status.confirmed) ∈ tablePairs
      ∧ baseConsultation.status = .pending)
    ∧ ((baseConsultation.updateStatus .confirmed 7 "ok" 42).2
          = .ok (.pending, .confirmed)
      ∧ (baseConsultation.updateStatus .confirmed 7 "ok" 42).1.status
          = .confirmed
      ∧ (baseConsultation.updateStatus .confirmed 7 "ok" 42).1.statusHistory.length
          = baseConsultation.statusHistory.length + 1
      ∧ (baseConsultation.updateStatus .confirmed 7 "ok" 42).1.statusHistory.getLast?
          = some { status := .confirmed, changedBy := 7, reason := "ok",
                   changedAt := 42 }) :=
  ⟨⟨by decide, rfl⟩,
    updateStatus_legal_transition baseConsultation .pending .confirmed 7 "ok" 42
      (by decide) rfl⟩

/-- C2: for every consultation and every (from, to) pair not in the
transition table, `updateStatus` fails with the invalid-transition error,
whose message is built from (and determines) both the current and the
requested status, and the consultation is left completely unchanged. -/
theorem updateStatus_illegal_transition (c : Consultation) (t : Status)
    (userId : Nat) (reason : String) (now : Nat)
    (hmem : (c.status, t) ∉ tablePairs) :
    (c.updateStatus t userId reason now).1 = c
    ∧ (c.updateStatus t userId reason now).1.status = c.status
    ∧ (c.updateStatus t userId reason now).1.statusHistory.length
        = c.statusHistory.length
    ∧ (c.updateStatus t userId reason now).2
        = .error (invalidTransitionMsg (statusStr c.status) (statusStr t))
    ∧ (∀ s2 t2 : Status,
        invalidTransitionMsg (statusStr s2) (statusStr t2)
          = invalidTransitionMsg (statusStr c.status) (statusStr t) →
        s2 = c.status ∧ t2 = t) := by
  have hcan : c.canChangeStatus t = .ok false := by
    unfold Consultation.canChangeStatus
    exact canTransition_false_of_not_mem_tablePairs c.status t hmem
  refine ⟨?_, ?_, ?_, ?_, ?_⟩
  · simp [Consultation.updateStatus, hcan]
  · simp [Consultation.updateStatus, hcan]
  · simp [Consultation.updateStatus, hcan]
  · simp [Consultation.updateStatus, hcan]
  · intro s2 t2 h
    exact invalidTransitionMsg_inj s2 t2 c.status t h

/-- Witness for C2: the illegal transition cancelled to confirmed on a
concrete cancelled consultation. -/
theorem updateStatus_illegal_transition_witness :
    ((cancelledConsultation.status, Status.confirmed) ∉ tablePairs)
    ∧ ((cancelledConsultation.updateStatus .confirmed 7 "" 42).1
          = cancelledConsultation
      ∧ (cancelledConsultation.updateStatus .confirmed 7 "" 42).1.status
          = cancelledConsultation.status
      ∧ (cancelledConsultation.updateStatus .confirmed 7 "" 42).1.statusHistory.length
          = cancelledConsultation.statusHistory.length
      ∧ (cancelledConsultation.updateStatus .confirmed 7 "" 42).2
          = .error (invalidTransitionMsg (statusStr cancelledConsultation.status)
              (statusStr .confirmed))
      ∧ (∀ s2 t2 : Status,
          invalidTransitionMsg (statusStr s2) (statusStr t2)
            = invalidTransitionMsg (statusStr cancelledConsultation.status)
                (statusStr .confirmed) →
          s2 = cancelledConsultation.status ∧ t2 = .confirmed)) :=
  ⟨by decide,
    updateStatus_illegal_transition cancelledConsultation .confirmed 7 "" 42
      (by decide)⟩

/-- Counterexample to C3 as stated: for the current value "constructor",
which is inherited from `Object.prototype`, the property lookup yields a
non-nullish value without an `includes` method, so the source throws a
`TypeError` instead of returning false. -/
theorem canTransition_prototype_counterexample :
    "constructor" ∉ statusStrings
    ∧ canTransition "constructor" "confirmed" = .error includesTypeErrorMsg
    ∧ ∀ b : Bool, canTransition "constructor" "confirmed" ≠ .ok b := by
  refine ⟨by decide, rfl, ?_⟩
  intro b h
  exact Except.noConfusion h

/-- C3 amended: `canTransition` is deterministic and returns true exactly
on the pairs of the fixed transition table; a current value outside the
four enum strings yields false, except when it is a property name
inherited from `Object.prototype`, where the source throws a `TypeError`
instead of returning false. -/
theorem canTransition_spec (current requested : String) :
    (canTransition current requested = .ok true ↔
      (current, requested) ∈ tablePairsStr)
    ∧ (current ∉ statusStrings → current ∉ objectPrototypeKeys →
        canTransition current requested = .ok false)
    ∧ (current ∈ objectPrototypeKeys →
        canTransition current requested = .error includesTypeErrorMsg) := by
  refine ⟨canTransition_iff_mem current requested, ?_, ?_⟩
  · intro hns hp
    have hor : ¬(current = "pending" ∨ current = "confirmed"
        ∨ current = "completed" ∨ current = "cancelled") := by
      simpa [statusStrings] using hns
    push_neg at hor
    obtain ⟨h1, h2, h3, h4⟩ := hor
    simp [canTransition, validTransitionsLookup, h1, h2, h3, h4, hp]
  · intro hp
    have hns := not_mem_statusStrings_of_mem_proto current hp
    have hor : ¬(current = "pending" ∨ current = "confirmed"
        ∨ current = "completed" ∨ current = "cancelled") := by
      simpa [statusStrings] using hns
    push_neg at hor
    obtain ⟨h1, h2, h3, h4⟩ := hor
    simp [canTransition, validTransitionsLookup, h1, h2, h3, h4, hp]

/-- Witness for the amended C3: a current value outside both the enum and
the prototype keys has no allowed transitions, and a prototype key
throws. -/
theorem canTransition_spec_witness :
    ("urgent" ∉ statusStrings ∧ "urgent" ∉ objectPrototypeKeys
      ∧ "toString" ∈ objectPrototypeKeys)
    ∧ (canTransition "urgent" "pending" = .ok false
      ∧ canTransition "toString" "pending" = .error includesTypeErrorMsg) :=
  ⟨⟨by decide, by decide, by decide⟩,
    (canTransition_spec "urgent" "pending").2.1 (by decide) (by decide),
    (canTransition_spec "toString" "pending").2.2 (by decide)⟩

/-- C4 fails on the code: `markAsResolved` changes the status of a
cancelled consultation to completed although the transition table allows
no transition out of cancelled, and it appends no history entry. -/
theorem markAsResolved_skips_table_and_history :
    cancelledConsultation.status = .cancelled
    ∧ (markAsResolved cancelledConsultation).status = .completed
    ∧ canTransition (statusStr cancelledConsultation.status)
        (statusStr .completed) = .ok false
    ∧ (markAsResolved cancelledConsultation).statusHistory.length
        = cancelledConsultation.statusHistory.length := by
  refine ⟨rfl, rfl, rfl, rfl⟩

/-- C5 fails on the code: `updateConsultation` hands `req.body` verbatim
to `findByIdAndUpdate`, so a payload whose `statusHistory` field is the
empty array shortens the stored history from one entry to none. -/
theorem updateConsultation_truncates_history :
    updateConsultation confirmedWithHistory 99 "admin" truncateHistoryBody
      = .ok { confirmedWithHistory with statusHistory := [] }
    ∧ 0 < confirmedWithHistory.statusHistory.length := by
  refine ⟨rfl, ?_⟩
  decide

/-- Counterexample to C6 as stated: an administrator who owns the
consultation is likewise not allowed to update or delete it once it is
confirmed — the pending-only guard tests ownership, not role. -/
theorem admin_owner_blocked_on_confirmed :
    adminOwned.status ≠ .pending
    ∧ updateConsultation adminOwned 5 "admin" plainBody
        = .error .forbiddenProcessed
    ∧ deleteConsultation adminOwned 5 "admin" = .error .forbiddenProcessed := by
  refine ⟨by decide, rfl, rfl⟩

/-- C6 amended: a non-admin owner may update or delete only while the
consultation is pending (otherwise the request is rejected with the
processed-lock error and no state change); a non-owner administrator may
update or delete regardless of status; an owner is subject to the
pending-only rule even when their role is admin. -/
theorem consultation_self_edit_policy (c : Consultation) (uid : Nat)
    (role : String) (b : UpdateBody) :
    (c.user = uid → c.status ≠ .pending →
      updateConsultation c uid role b = .error .forbiddenProcessed
      ∧ deleteConsultation c uid role = .error .forbiddenProcessed)
    ∧ (c.user = uid → c.status = .pending →
      updateConsultation c uid role b = .ok (applyUpdate c b)
      ∧ deleteConsultation c uid role = .ok ())
    ∧ (c.user ≠ uid → role = "admin" →
      updateConsultation c uid role b = .ok (applyUpdate c b)
      ∧ deleteConsultation c uid role = .ok ()) := by
  refine ⟨?_, ?_, ?_⟩ <;> intro h1 h2 <;>
    simp [updateConsultation, deleteConsultation, h1, h2]

/-- Witness for the amended C6: a non-admin owner successfully edits and
deletes their own pending consultation. -/
theorem consultation_self_edit_policy_witness :
    (baseConsultation.user = 1 ∧ baseConsultation.status = .pending)
    ∧ (updateConsultation baseConsultation 1 "user" plainBody
        = .ok (applyUpdate baseConsultation plainBody)
      ∧ deleteConsultation baseConsultation 1 "user" = .ok ()) :=
  ⟨⟨rfl, rfl⟩,
    (consultation_self_edit_policy baseConsultation 1 "user" plainBody).2.1
      rfl rfl⟩

/-- C7 fails on the code: the urgent endpoint's filter is
`{isUrgent: true} || {status: "urgent"}`, which evaluates to its first
operand, so an urgent consultation whose status is completed is returned;
the schema static that also checks `status: "pending"` would exclude it,
but the controller never calls it. -/
theorem urgent_endpoint_ignores_status :
    getUrgentConsultations [urgentCompleted] = [urgentCompleted]
    ∧ urgentCompleted.status ≠ .pending
    ∧ getUrgentConsultationsStatic [urgentCompleted] = [] := by
  refine ⟨rfl, by decide, rfl⟩

/-- Counterexample to C8 as stated: on a collection holding one urgent
completed consultation, the aggregation reports an urgent count of 1
while the number of urgent pending consultations is 0. -/
theorem stats_urgent_count_counterexample :
    (getConsultationStats [urgentCompleted]).urgent = 1
    ∧ specUrgentPendingCount [urgentCompleted] = 0 := by
  refine ⟨rfl, rfl⟩

/-- C8 amended: the urgent count returned by the stats aggregation equals
the number of consultations whose urgency flag is set, regardless of
status. -/
theorem stats_urgent_counts_all_urgent (db : List Consultation) :
    (getConsultationStats db).urgent
      = (db.filter (fun c => c.isUrgent)).length := by
  have key : ∀ (l : List Consultation) (s : Stats),
      (l.foldl statsStep s).urgent
        = s.urgent + (l.filter (fun c => c.isUrgent)).length := by
    intro l
    induction l with
    | nil => intro s; simp
    | cons c cs ih =>
      intro s
      rw [List.foldl_cons, ih]
      cases hc : c.isUrgent
      · simp [statsStep, hc, List.filter_cons]
      · simp [statsStep, hc, List.filter_cons]
        omega
  simpa [getConsultationStats] using key db ⟨0, 0, 0, 0, 0⟩

/-- C9 fails on the code: creation does pin the owner to the requester
(the spread puts `user: req.user.id` after `...req.body`), but
`updateConsultation` hands `req.body` verbatim to `findByIdAndUpdate`,
so a payload with a `user` field reassigns the owner. -/
theorem updateConsultation_can_change_owner :
    (createConsultation ownerBody 1 0).user = 1
    ∧ updateConsultation baseConsultation 99 "admin" ownerBody
        = .ok { baseConsultation with user := 42 }
    ∧ (42 : Nat) ≠ baseConsultation.user := by
  refine ⟨rfl, rfl, by decide⟩

end Ecosus
